import Mathlib

/-!
Verification of the rdma-lib repository: a shallow embedding of the
connection/resource engine (common.c, common.h) and of the lambda execution
protocol (lambda/lambda_server.c, lambda/lambda.h, rdma-read/rdma_read.c,
rdma-write/rdma_write.c), with theorems settling the behavioural claims of
the specification against the code.

Handles returned by the verbs library (device context, protection domain,
completion queue, queue pair, memory region) and heap allocations are
modelled as natural-number tokens drawn from a set of live tokens;
destroying a token that is no longer live models the undefined behaviour of
`ibv_dereg_mr`/`free`/... on a stale handle (double free) and is a fault,
rendered as `none`.  Closing a file descriptor that is already closed is
not a fault in POSIX (`close` merely returns `EBADF`), so it is modelled as
an erase that may be a no-op.
-/

namespace Rdma

/-! ## Constants (common.h, lambda.h) -/

/-- MAX_BUFFER_SIZE from common.h: size of the registered data buffer. -/
def MAX_BUFFER_SIZE : Nat := 4096

/-- LAMBDA_MAX_CODE_SIZE from lambda.h: capacity of the executable code region (3 MiB). -/
def LAMBDA_MAX_CODE_SIZE : Nat := 1024 * 1024 * 3

/-- LAMBDA_MAX_INPUT_SIZE from lambda.h. -/
def LAMBDA_MAX_INPUT_SIZE : Nat := MAX_BUFFER_SIZE

/-! ## Enumerations (common.h) -/

/-- rdma_mode_t from common.h. -/
inductive rdma_mode_t
  | MODE_SEND_RECV
  | MODE_WRITE
  | MODE_READ
  | MODE_LAMBDA
deriving DecidableEq, Repr, Fintype

/-- rdma_op_t from common.h. -/
inductive rdma_op_t
  | OP_SEND
  | OP_WRITE
  | OP_READ
deriving DecidableEq, Repr

/-- rdma_status_t from common.h. -/
inductive rdma_status_t
  | RDMA_SUCCESS
  | RDMA_ERR_DEVICE
  | RDMA_ERR_RESOURCE
  | RDMA_ERR_COMMUNICATION
deriving DecidableEq, Repr

open rdma_mode_t rdma_op_t rdma_status_t

/-! ## The connection context (struct config_t, common.h)

Each resource-holding field is an `Option Nat`: `some h` is a non-NULL
pointer holding handle token `h`, `none` is NULL.  `sock_fd` is an `int` in
the C structure and is tested with `if (config->sock_fd)`, so 0 plays the
role of "absent".  `gid` is a plain value (no resource attached). -/

structure config_t where
  context : Option Nat
  pd : Option Nat
  cq : Option Nat
  qp : Option Nat
  mr : Option Nat
  buf : Option Nat
  gid : Nat
  sock_fd : Nat
deriving DecidableEq, Repr

/-- Zero-initialized context, as in the callers (struct config_t config = {};). -/
def emptyConfig : config_t :=
  { context := none, pd := none, cq := none, qp := none, mr := none, buf := none,
    gid := 0, sock_fd := 0 }

/-! ## Live-handle accounting -/

/-- Destroy a verbs handle or heap allocation: a fault (undefined behaviour,
double free) if the token is not live. -/
def destroyHandle (h : Nat) (live : List Nat) : Option (List Nat) :=
  if h ∈ live then some (live.erase h) else none

/-- Destroy the handle behind an optional field if the field is non-NULL
(the `if (config->x)` guards of cleanup_resources). -/
def destroyIfPresent (f : Option Nat) (live : List Nat) : Option (List Nat) :=
  match f with
  | some h => destroyHandle h live
  | none => some live

/-- Close a file descriptor: closing an already-closed descriptor returns
EBADF but does not fault, so this is a plain erase. -/
def closeFd (fd : Nat) (live : List Nat) : List Nat :=
  live.erase fd

/-! ## Teardown (cleanup_qp and cleanup_resources, common.c) -/

/-- cleanup_qp from common.c: destroys the queue pair and NULLs the field
(`config->qp = NULL;`).  This is the only field cleanup ever NULLs. -/
def cleanup_qp (c : config_t) (live : List Nat) : Option (config_t × List Nat) :=
  match c.qp with
  | some h => (destroyHandle h live).map (fun l => ({ c with qp := none }, l))
  | none => some (c, live)

/-- cleanup_resources from common.c, in source order: queue pair (via
cleanup_qp, which NULLs the field), then `ibv_dereg_mr(config->mr)`,
`free(config->buf)`, `ibv_destroy_cq(config->cq)`,
`ibv_dealloc_pd(config->pd)`, `ibv_close_device(config->context)`,
`close(config->sock_fd)` — each guarded by a presence test on the field,
and none of these six fields is NULLed after being destroyed (the C code
only NULLs `qp`). -/
def cleanup_resources (c : config_t) (live : List Nat) : Option (config_t × List Nat) := do
  let (c1, l1) ← cleanup_qp c live
  let l2 ← destroyIfPresent c1.mr l1
  let l3 ← destroyIfPresent c1.buf l2
  let l4 ← destroyIfPresent c1.cq l3
  let l5 ← destroyIfPresent c1.pd l4
  let l6 ← destroyIfPresent c1.context l5
  let l7 := if c1.sock_fd ≠ 0 then closeFd c1.sock_fd l6 else l6
  pure (c1, l7)

/-- A fully initialized connection context with distinct handle tokens. -/
def fullConfig : config_t :=
  { context := some 1, pd := some 2, cq := some 3, qp := some 4, mr := some 5,
    buf := some 6, gid := 0, sock_fd := 7 }

/-- The live tokens matching `fullConfig`. -/
def fullLive : List Nat := [1, 2, 3, 4, 5, 6, 7]

/-- A context in which only the first two fields (device context and
protection domain) were ever populated. -/
def prefixOnlyConfig : config_t :=
  { context := some 1, pd := some 2, cq := none, qp := none, mr := none,
    buf := none, gid := 0, sock_fd := 0 }

/-- C1.  Teardown is NOT idempotent in the code.  The first call on a fully
initialized context destroys every handle (no live handle remains) but
NULLs only the `qp` field, so the second call on the very same context
passes the stale `mr`/`buf`/`cq`/`pd`/`context` handles to
`ibv_dereg_mr`/`free`/... again — a double free, i.e. a fault (`none`).
Teardown of a context in which only the first two fields were ever
populated does skip the absent fields and leaves no live handle, as the
claim states; the already-torn-down half of the claim is what the code
violates. -/
theorem cleanup_resources_second_call_faults :
    cleanup_resources fullConfig fullLive = some ({ fullConfig with qp := none }, []) ∧
    cleanup_resources { fullConfig with qp := none } [] = none ∧
    cleanup_resources prefixOnlyConfig [1, 2] = some (prefixOnlyConfig, []) := by
  decide

/-! ## Byte order (htonl / ntohl)

The host is little-endian x86-64, so both `htonl` and `ntohl` are the
32-bit byte swap.  A machine 32-bit word is a `Nat` reduced mod 2^32. -/

/-- Byte `i` (little-endian position) of a natural number. -/
def byteAt (n i : Nat) : Nat := n / 256 ^ i % 256

/-- The 32-bit byte swap. -/
def bswap32 (n : Nat) : Nat :=
  byteAt n 0 * 2 ^ 24 + byteAt n 1 * 2 ^ 16 + byteAt n 2 * 2 ^ 8 + byteAt n 3

/-- htonl on a little-endian host: byte-swap of the 32-bit truncation. -/
def htonl (n : Nat) : Nat := bswap32 (n % 2 ^ 32)

/-- ntohl on a little-endian host: byte-swap of the 32-bit truncation. -/
def ntohl (n : Nat) : Nat := bswap32 (n % 2 ^ 32)

theorem bswap32_decomp (b0 b1 b2 b3 : Nat) (h0 : b0 < 256) (h1 : b1 < 256)
    (h2 : b2 < 256) (h3 : b3 < 256) :
    bswap32 (b0 + 256 * b1 + 65536 * b2 + 16777216 * b3)
      = b3 + 256 * b2 + 65536 * b1 + 16777216 * b0 := by
  unfold bswap32 byteAt
  norm_num
  omega

theorem ntohl_htonl (n : Nat) (h : n < 2 ^ 32) : ntohl (htonl n) = n := by
  obtain ⟨b0, b1, b2, b3, h0, h1, h2, h3, rfl⟩ :
      ∃ b0 b1 b2 b3, b0 < 256 ∧ b1 < 256 ∧ b2 < 256 ∧ b3 < 256 ∧
        n = b0 + 256 * b1 + 65536 * b2 + 16777216 * b3 :=
    ⟨n % 256, n / 256 % 256, n / 65536 % 256, n / 16777216,
      by omega, by omega, by omega, by omega, by omega⟩
  unfold ntohl htonl
  rw [Nat.mod_eq_of_lt (by omega : b0 + 256 * b1 + 65536 * b2 + 16777216 * b3 < 2 ^ 32)]
  rw [bswap32_decomp b0 b1 b2 b3 h0 h1 h2 h3]
  rw [Nat.mod_eq_of_lt (by omega : b3 + 256 * b2 + 65536 * b1 + 16777216 * b0 < 2 ^ 32)]
  rw [bswap32_decomp b3 b2 b1 b0 h3 h2 h1 h0]

/-! ## Peer address record (struct qp_info_t, common.h) -/

/-- qp_info_t from common.h: queue-pair number, GID (16-byte value, modelled
as one number), registered-buffer base address, remote access key. -/
structure qp_info_t where
  qp_num : Nat
  gid : Nat
  addr : Nat
  rkey : Nat
deriving DecidableEq, Repr

/-- Size in bytes of `struct qp_info_t` on the reference platform
(x86-64): u32 at 0, 16-byte GID at 8 (8-aligned), u64 at 24, u32 at 32,
padded to 40.  Both sides of the exchange use `sizeof(*info)`, i.e. this
one constant. -/
def sizeof_qp_info : Nat := 40

/-! ## Operation executor (post_operation, post_receive; common.c)

The registered buffer is a byte list.  A work request records what
`post_operation` hands to `ibv_post_send`.  `post_operation` is `void` in
the source: no status is ever surfaced to the caller on any path (the
over-length path silently returns, the `ibv_post_send`-failure path calls
`die`, i.e. terminates the process); the `reported` field records this
(absent) error channel and is `none` on every path by the source's own
shape.  `postOk` is the oracle for the verbs call `ibv_post_send`
succeeding; the C dereferences `remote_info` for WRITE/READ, and every
caller in the repository passes a non-NULL record there, so the model
carries the record's fields through `Option.map`. -/

/-- Work-request opcodes used by post_operation (infiniband/verbs.h). -/
inductive wr_opcode
  | IBV_WR_SEND
  | IBV_WR_RDMA_WRITE_WITH_IMM
  | IBV_WR_RDMA_READ
deriving DecidableEq, Repr

open wr_opcode

/-- The parts of `struct ibv_send_wr` (plus its single SGE) that
post_operation fills in. -/
structure ibv_send_wr where
  opcode : wr_opcode
  sge_length : Nat
  imm_data : Option Nat
  remote_addr : Option Nat
  rkey : Option Nat
deriving DecidableEq, Repr

/-- Outcome of one post_operation call: the registered buffer afterwards,
the work request handed to `ibv_post_send` (none if rejected before
posting), whether the process died in `die`, and the status surfaced to
the caller (always `none`: the C function is void and has no error
channel). -/
structure PostOutcome where
  buf : List Nat
  posted : Option ibv_send_wr
  died : Bool
  reported : Option rdma_status_t
deriving DecidableEq, Repr

/-- The effect of `memcpy(config->buf, data, length)`: the first `length`
bytes of the buffer are replaced by the first `length` bytes of `data`,
the rest is unchanged (callers pass `length ≤ data.length`). -/
def writeBytes (buf data : List Nat) (length : Nat) : List Nat :=
  data.take length ++ buf.drop length

/-- post_operation from common.c.  Rejects (silent early return) when
`length > MAX_BUFFER_SIZE`; otherwise copies the payload for SEND/WRITE,
builds the work request (WRITE carries `htonl(length)` as immediate data
and the target's address and rkey; READ carries address and rkey, no
copy), and posts it — `die` if `ibv_post_send` fails. -/
def post_operation (buf : List Nat) (op : rdma_op_t) (data : Option (List Nat))
    (remote_info : Option qp_info_t) (length : Nat) (postOk : Bool) : PostOutcome :=
  if length > MAX_BUFFER_SIZE then
    { buf := buf, posted := none, died := false, reported := none }
  else
    let bufAfter :=
      match op, data with
      | OP_SEND, some d => writeBytes buf d length
      | OP_WRITE, some d => writeBytes buf d length
      | _, _ => buf
    let wr : ibv_send_wr :=
      match op with
      | OP_SEND =>
        { opcode := IBV_WR_SEND, sge_length := length, imm_data := none,
          remote_addr := none, rkey := none }
      | OP_WRITE =>
        { opcode := IBV_WR_RDMA_WRITE_WITH_IMM, sge_length := length,
          imm_data := some (htonl length),
          remote_addr := remote_info.map (fun r => r.addr),
          rkey := remote_info.map (fun r => r.rkey) }
      | OP_READ =>
        { opcode := IBV_WR_RDMA_READ, sge_length := length, imm_data := none,
          remote_addr := remote_info.map (fun r => r.addr),
          rkey := remote_info.map (fun r => r.rkey) }
    if postOk then
      { buf := bufAfter, posted := some wr, died := false, reported := none }
    else
      { buf := bufAfter, posted := none, died := true, reported := none }

/-- C4 counterexample.  A post one byte over the buffer capacity is indeed
rejected before posting with the buffer untouched, but the failure is NOT
reported as a ResourceError — post_operation is void and surfaces no
status at all (silent return). -/
theorem post_over_capacity_not_reported :
    (post_operation [0, 0] OP_SEND (some [1, 1]) none (MAX_BUFFER_SIZE + 1) true).posted
        = none ∧
    (post_operation [0, 0] OP_SEND (some [1, 1]) none (MAX_BUFFER_SIZE + 1) true).buf
        = [0, 0] ∧
    ¬ (post_operation [0, 0] OP_SEND (some [1, 1]) none (MAX_BUFFER_SIZE + 1) true).reported
        = some RDMA_ERR_RESOURCE := by
  decide

/-- C4 amended.  Every post whose length exceeds MAX_BUFFER_SIZE is
rejected before any work request is posted — no bytes are copied into the
registered buffer — but silently: no error (in particular no
ResourceError) reaches the caller, post_operation simply returns. -/
theorem post_over_capacity_rejected_silently (buf : List Nat) (op : rdma_op_t)
    (data : Option (List Nat)) (remote_info : Option qp_info_t) (length : Nat)
    (postOk : Bool) (h : length > MAX_BUFFER_SIZE) :
    post_operation buf op data remote_info length postOk
      = { buf := buf, posted := none, died := false, reported := none } := by
  unfold post_operation
  simp [h]

/-- Witness for `post_over_capacity_rejected_silently` at a concrete input. -/
theorem post_over_capacity_rejected_silently_witness :
    4097 > MAX_BUFFER_SIZE ∧
    post_operation [3] OP_WRITE (some [7]) none 4097 false
      = { buf := [3], posted := none, died := false, reported := none } :=
  ⟨by decide, post_over_capacity_rejected_silently [3] OP_WRITE (some [7]) none 4097 false
      (by decide)⟩

/-! ## Lambda server loop (lambda_server_loop, lambda/lambda_server.c)

One iteration of the `while (1)` body, driven by the metadata record of the
incoming request.  `post_lambda_receive` returns 0 unconditionally (see
below), so the `break` guarded by its result is dead; the live exits of the
loop body are the two validation `break`s.  The effects recorded are: how
many bytes of code were copied into the executable region (`memcpy(...,
meta->code_size)`), the entry offset actually invoked (the code computes
`code_region + entry_offset` and calls it), whether a result record was
written back, and whether control returns to the top of the loop
(`loopContinues = false` models `break`: the loop exits and the server
stops serving). -/

/-- lambda_metadata from lambda.h (function_name modelled as its byte list). -/
structure lambda_metadata where
  function_name : List Nat
  code_size : Nat
  input_size : Nat
  entry_offset : Nat
deriving DecidableEq, Repr

/-- Observable effects of one iteration of lambda_server_loop. -/
structure IterEffects where
  codeCopied : Option Nat
  invokedAt : Option Nat
  resultWritten : Bool
  loopContinues : Bool
deriving DecidableEq, Repr

/-- One iteration of lambda_server_loop from lambda_server.c, keyed on the
received metadata: the `code_size` validation `break`s out of the loop
before any code is copied; otherwise the code is copied and the input
received; the `entry_offset >= code_size` validation `break`s out before
the function pointer is formed; otherwise the function at
`code_region + entry_offset` is invoked and the result written back with
`post_lambda_write`, after which the loop repeats. -/
def lambda_server_iteration (meta : lambda_metadata) : IterEffects :=
  if meta.code_size = 0 ∨ meta.code_size > LAMBDA_MAX_CODE_SIZE then
    { codeCopied := none, invokedAt := none, resultWritten := false,
      loopContinues := false }
  else if meta.entry_offset ≥ meta.code_size then
    { codeCopied := some meta.code_size, invokedAt := none,
      resultWritten := false, loopContinues := false }
  else
    { codeCopied := some meta.code_size, invokedAt := some meta.entry_offset,
      resultWritten := true, loopContinues := true }

/-- A metadata record with `code_size = 0`. -/
def zeroSizeMeta : lambda_metadata :=
  { function_name := [], code_size := 0, input_size := 0, entry_offset := 0 }

/-- C2 counterexample.  On a metadata record with `code_size = 0` the
request is indeed rejected with no code copied and nothing executed, but
the server loop does NOT continue to the next request: the validation
failure executes `break`, so the loop exits. -/
theorem invalid_code_size_exits_loop :
    (lambda_server_iteration zeroSizeMeta).codeCopied = none ∧
    (lambda_server_iteration zeroSizeMeta).invokedAt = none ∧
    (lambda_server_iteration zeroSizeMeta).loopContinues = false := by
  decide

/-- C2 amended.  A metadata record whose `code_size` is zero or exceeds
LAMBDA_MAX_CODE_SIZE rejects the request — no code is copied into the
executable region and nothing is executed — but the server loop then
exits (`break`) instead of waiting for the next request. -/
theorem invalid_code_size_rejected_and_loop_exits (meta : lambda_metadata)
    (h : meta.code_size = 0 ∨ meta.code_size > LAMBDA_MAX_CODE_SIZE) :
    lambda_server_iteration meta
      = { codeCopied := none, invokedAt := none, resultWritten := false,
          loopContinues := false } := by
  unfold lambda_server_iteration
  simp [h]

/-- Witness for `invalid_code_size_rejected_and_loop_exits` at a concrete
metadata record whose code_size exceeds the capacity. -/
theorem invalid_code_size_rejected_and_loop_exits_witness :
    ((3145729 : Nat) = 0 ∨ (3145729 : Nat) > LAMBDA_MAX_CODE_SIZE) ∧
    lambda_server_iteration
        { function_name := [], code_size := 3145729, input_size := 5, entry_offset := 0 }
      = { codeCopied := none, invokedAt := none, resultWritten := false,
          loopContinues := false } :=
  ⟨Or.inr (by decide),
    invalid_code_size_rejected_and_loop_exits
      { function_name := [], code_size := 3145729, input_size := 5, entry_offset := 0 }
      (Or.inr (by decide))⟩

/-- C3.  Whenever the entry offset does not fall strictly inside the
received code length, the execute step is unreachable: no function pointer
into the code region is ever formed or invoked, whichever of the two
validation `break`s fires. -/
theorem entry_offset_out_of_range_never_invoked (meta : lambda_metadata)
    (h : meta.entry_offset ≥ meta.code_size) :
    (lambda_server_iteration meta).invokedAt = none ∧
    (lambda_server_iteration meta).resultWritten = false := by
  unfold lambda_server_iteration
  by_cases hz : meta.code_size = 0 ∨ meta.code_size > LAMBDA_MAX_CODE_SIZE
  · simp [hz]
  · simp [hz, h]

/-- Witness for `entry_offset_out_of_range_never_invoked`: a well-sized
code blob whose entry offset equals its length. -/
theorem entry_offset_out_of_range_never_invoked_witness :
    ({ function_name := [], code_size := 64, input_size := 3,
        entry_offset := 64 } : lambda_metadata).entry_offset ≥ 64 ∧
    (lambda_server_iteration
        { function_name := [], code_size := 64, input_size := 3, entry_offset := 64 }).invokedAt
      = none :=
  ⟨by decide,
    (entry_offset_out_of_range_never_invoked
      { function_name := [], code_size := 64, input_size := 3, entry_offset := 64 }
      (by decide)).1⟩

/-! ## Transport delivery and the write-mode receiver (rdma_write.c)

`rdma_deliver_write` is the one-step semantics of the reliable-connection
transport for a signaled RDMA write-with-immediate: the first `sge_length`
bytes of the sender's registered buffer land at the start of the peer's
registered buffer (every write in the repository targets the peer's buffer
base) and the immediate value is delivered with the peer's receive
completion.  `rw_server_observe` is the receiving side of rw_server_loop
(rdma_write.c): it recovers the length as `ntohl(wc.imm_data)` and reads
that many bytes from the start of its buffer. -/

/-- One-step transport semantics for a posted write-with-immediate work
request: the payload placed into the peer's buffer plus the immediate. -/
def rdma_deliver_write (senderBuf : List Nat) (wr : ibv_send_wr) (peerBuf : List Nat) :
    Option (List Nat × Nat) :=
  match wr.opcode, wr.imm_data with
  | IBV_WR_RDMA_WRITE_WITH_IMM, some imm =>
      some (senderBuf.take wr.sge_length ++ peerBuf.drop wr.sge_length, imm)
  | _, _ => none

/-- The receiver side of rw_server_loop: `received_len = ntohl(wc.imm_data)`
and the message is the first `received_len` bytes of the buffer. -/
def rw_server_observe (d : List Nat × Nat) : List Nat × Nat :=
  ((d.1).take (ntohl d.2), ntohl d.2)

/-- End-to-end scenario for one write-with-notification: post the write of
`m` (post_operation, OP_WRITE, length `m.length`), deliver it, and let the
peer observe it. -/
def write_roundtrip (senderBuf peerBuf m : List Nat) (t : qp_info_t) :
    Option (List Nat × Nat) :=
  let out := post_operation senderBuf OP_WRITE (some m) (some t) m.length true
  match out.posted with
  | some wr => (rdma_deliver_write out.buf wr peerBuf).map rw_server_observe
  | none => none

/-- C7.  For every message `m` of length at most the buffer capacity, a
one-sided write of `m` copies `m` into the registered buffer and posts a
write-with-immediate whose notification value is `htonl (m.length)`, and
the peer that completes the matching receive observes exactly `m` together
with a notification value equal to `m.length`. -/
theorem write_notify_roundtrip (m senderBuf peerBuf : List Nat) (t : qp_info_t)
    (h : m.length ≤ MAX_BUFFER_SIZE) :
    (post_operation senderBuf OP_WRITE (some m) (some t) m.length true).posted
      = some { opcode := IBV_WR_RDMA_WRITE_WITH_IMM, sge_length := m.length,
               imm_data := some (htonl m.length), remote_addr := some t.addr,
               rkey := some t.rkey } ∧
    write_roundtrip senderBuf peerBuf m t = some (m, m.length) := by
  have hnot : ¬ (m.length > MAX_BUFFER_SIZE) := not_lt.mpr h
  have hlt : m.length < 2 ^ 32 := by
    have : MAX_BUFFER_SIZE < 2 ^ 32 := by decide
    omega
  have hbuf : writeBytes senderBuf m m.length = m ++ senderBuf.drop m.length := by
    rw [writeBytes, List.take_length]
  have htake : ∀ rest : List Nat, (m ++ rest).take m.length = m := by
    intro rest
    exact List.take_left m rest
  constructor
  · unfold post_operation
    simp [hnot]
  · unfold write_roundtrip post_operation rdma_deliver_write rw_server_observe
    simp only [hnot, if_false, if_true, gt_iff_lt, not_lt.mpr h, Option.map_some]
    simp only [hbuf]
    simp [htake, ntohl_htonl m.length hlt]

/-- Witness for `write_notify_roundtrip` on the two-byte message [104, 105]. -/
theorem write_notify_roundtrip_witness :
    ([104, 105] : List Nat).length ≤ MAX_BUFFER_SIZE ∧
    write_roundtrip [0, 0, 0] [9, 9, 9] [104, 105]
        { qp_num := 11, gid := 0, addr := 4096, rkey := 77 }
      = some ([104, 105], 2) :=
  ⟨by decide,
    (write_notify_roundtrip [104, 105] [0, 0, 0] [9, 9, 9]
      { qp_num := 11, gid := 0, addr := 4096, rkey := 77 } (by decide)).2⟩

/-! ## One-sided read posting (rd_post_read, rdma_read.c) -/

/-- rd_post_read from rdma_read.c: `remote_info->addr += remote_offset`,
post the read through post_operation, then `remote_info->addr -=
remote_offset`.  `addr` and `remote_offset` are uint64, so both updates
are modulo 2^64 (the decrement is the wrapping subtraction). -/
def rd_post_read (buf : List Nat) (remote_offset length : Nat) (ri : qp_info_t)
    (postOk : Bool) : qp_info_t × PostOutcome :=
  let ri1 : qp_info_t := { ri with addr := (ri.addr + remote_offset) % 2 ^ 64 }
  let out := post_operation buf OP_READ none (some ri1) length postOk
  let ri2 : qp_info_t := { ri1 with addr := (ri1.addr + (2 ^ 64 - remote_offset % 2 ^ 64)) % 2 ^ 64 }
  (ri2, out)

/-- C9.  rd_post_read preserves the caller's remote-info record: the offset
is added to `addr` only to target the posted read (the work request's
remote address is `addr + offset`), and is subtracted again before
returning, so every field of the record — `addr` included — is unchanged
after the call. -/
theorem rd_post_read_preserves_remote_info (buf : List Nat) (off len : Nat)
    (ri : qp_info_t) (postOk : Bool) (haddr : ri.addr < 2 ^ 64) (hoff : off < 2 ^ 64) :
    (rd_post_read buf off len ri postOk).1 = ri ∧
    (len ≤ MAX_BUFFER_SIZE → postOk = true →
      (rd_post_read buf off len ri postOk).2.posted
        = some { opcode := IBV_WR_RDMA_READ, sge_length := len, imm_data := none,
                 remote_addr := some ((ri.addr + off) % 2 ^ 64),
                 rkey := some ri.rkey }) := by
  obtain ⟨q, g, a, r⟩ := ri
  have ha : a < 2 ^ 64 := haddr
  constructor
  · simp [rd_post_read]
    omega
  · intro hlen hok
    have hnot : ¬ (len > MAX_BUFFER_SIZE) := not_lt.mpr hlen
    simp only [rd_post_read, post_operation, hnot, if_false, hok, if_true]
    simp

/-- Witness for `rd_post_read_preserves_remote_info` at a concrete record,
offset 3 and length 4. -/
theorem rd_post_read_preserves_remote_info_witness :
    ({ qp_num := 1, gid := 2, addr := 1000, rkey := 5 } : qp_info_t).addr < 2 ^ 64 ∧
    (3 : Nat) < 2 ^ 64 ∧
    (rd_post_read [8, 8] 3 4 { qp_num := 1, gid := 2, addr := 1000, rkey := 5 } true).1
      = { qp_num := 1, gid := 2, addr := 1000, rkey := 5 } :=
  ⟨by decide, by decide,
    (rd_post_read_preserves_remote_info [8, 8] 3 4
      { qp_num := 1, gid := 2, addr := 1000, rkey := 5 } true
      (by decide) (by decide)).1⟩

/-! ## Receive posting and the lambda-mode wrappers (lambda_server.c, common.c) -/

/-- The parts of `struct ibv_recv_wr` (with its single SGE) that
post_receive fills in. -/
structure ibv_recv_wr where
  sge_length : Nat
deriving DecidableEq, Repr

/-- post_receive from common.c: posts a receive work request spanning the
whole registered buffer; `die` (modelled as `none`) if `ibv_post_recv`
fails. -/
def post_receive (postOk : Bool) : Option ibv_recv_wr :=
  if postOk then some { sge_length := MAX_BUFFER_SIZE } else none

/-- post_lambda_send from lambda_server.c: posts an OP_SEND of the full
MAX_BUFFER_SIZE regardless of the payload's real size, and returns 0. -/
def post_lambda_send (buf payload : List Nat) (postOk : Bool) :
    PostOutcome × Option Nat :=
  let out := post_operation buf OP_SEND (some payload) none MAX_BUFFER_SIZE postOk
  (out, if out.died then none else some 0)

/-- post_lambda_receive from lambda_server.c: posts a receive and returns 0
(no return when post_receive dies). -/
def post_lambda_receive (postOk : Bool) : Option Nat :=
  (post_receive postOk).map (fun _ => 0)

/-- post_lambda_write from lambda_server.c: posts an OP_WRITE of the full
MAX_BUFFER_SIZE regardless of the payload's real size, and returns 0. -/
def post_lambda_write (buf payload : List Nat) (remote_info : qp_info_t)
    (postOk : Bool) : PostOutcome × Option Nat :=
  let out := post_operation buf OP_WRITE (some payload) (some remote_info)
    MAX_BUFFER_SIZE postOk
  (out, if out.died then none else some 0)

/-- C10.  post_lambda_send and post_lambda_write always post their
operation with length MAX_BUFFER_SIZE = 4096 (the full buffer) no matter
how large the payload actually is, and all three lambda-mode wrappers
return 0 on every call from which they return at all (the only non-return
is the `die` inside a failed verbs post). -/
theorem lambda_wrappers_full_length_and_zero (buf payload : List Nat)
    (ri : qp_info_t) (postOk : Bool) :
    MAX_BUFFER_SIZE = 4096 ∧
    ((post_lambda_send buf payload postOk).2 ≠ none →
      (post_lambda_send buf payload postOk).2 = some 0) ∧
    ((post_lambda_write buf payload ri postOk).2 ≠ none →
      (post_lambda_write buf payload ri postOk).2 = some 0) ∧
    (post_lambda_receive postOk ≠ none → post_lambda_receive postOk = some 0) ∧
    (postOk = true →
      ∃ wrS, (post_lambda_send buf payload postOk).1.posted = some wrS ∧
        wrS.sge_length = MAX_BUFFER_SIZE ∧ wrS.opcode = IBV_WR_SEND) ∧
    (postOk = true →
      ∃ wrW, (post_lambda_write buf payload ri postOk).1.posted = some wrW ∧
        wrW.sge_length = MAX_BUFFER_SIZE ∧
        wrW.opcode = IBV_WR_RDMA_WRITE_WITH_IMM) := by
  refine ⟨rfl, ?_, ?_, ?_, ?_, ?_⟩ <;>
    cases postOk <;>
      simp [post_lambda_send, post_lambda_write, post_lambda_receive,
        post_receive, post_operation, MAX_BUFFER_SIZE]

/-- Witness for `lambda_wrappers_full_length_and_zero` at a concrete call. -/
theorem lambda_wrappers_full_length_and_zero_witness :
    (post_lambda_send [1] [2, 3] true).2 = some 0 :=
  ((lambda_wrappers_full_length_and_zero [1] [2, 3]
      { qp_num := 0, gid := 0, addr := 0, rkey := 0 } true).2.1) (by decide)

/-! ## Resource initialization (init_resources, common.c)

Each external call that can fail (`ibv_get_device_list`, the device lookup,
`ibv_open_device`, `ibv_alloc_pd`, `ibv_create_cq`, `ibv_create_qp`,
`malloc`, `ibv_reg_mr`, `ibv_query_gid`) is driven by one oracle bit.
Fresh handles come from a counter; the device list itself is an allocation
that the source frees (`ibv_free_device_list`) on every path.  On each
failure after the context was opened the source calls cleanup_resources on
the partial context and returns a typed error. -/

/-- Allocation state: live handle tokens plus a fresh-token counter. -/
structure Alloc where
  live : List Nat
  next : Nat
deriving DecidableEq, Repr

/-- Allocate a fresh live handle. -/
def allocH (a : Alloc) : Nat × Alloc :=
  (a.next, { live := a.next :: a.live, next := a.next + 1 })

/-- Free a handle (ibv_free_device_list; the source frees it exactly once
per path, always while live). -/
def freeH (h : Nat) (a : Alloc) : Alloc :=
  { a with live := a.live.erase h }

/-- Success/failure oracle for the external calls made by init_resources,
in source order. -/
structure InitOracle where
  dev_list_ok : Bool
  device_present : Bool
  open_ok : Bool
  pd_ok : Bool
  cq_ok : Bool
  qp_ok : Bool
  malloc_ok : Bool
  reg_mr_ok : Bool
  gid_ok : Bool
deriving DecidableEq, Repr

/-- The nine oracle bits as an explicit product, giving InitOracle its
finiteness. -/
instance : Fintype InitOracle :=
  Fintype.ofEquiv (Bool × Bool × Bool × Bool × Bool × Bool × Bool × Bool × Bool)
    { toFun := fun b =>
        { dev_list_ok := b.1, device_present := b.2.1, open_ok := b.2.2.1,
          pd_ok := b.2.2.2.1, cq_ok := b.2.2.2.2.1, qp_ok := b.2.2.2.2.2.1,
          malloc_ok := b.2.2.2.2.2.2.1, reg_mr_ok := b.2.2.2.2.2.2.2.1,
          gid_ok := b.2.2.2.2.2.2.2.2 },
      invFun := fun o =>
        (o.dev_list_ok, o.device_present, o.open_ok, o.pd_ok, o.cq_ok,
          o.qp_ok, o.malloc_ok, o.reg_mr_ok, o.gid_ok),
      left_inv := fun b => rfl,
      right_inv := fun o => rfl }

/-- Failure-path helper of init_resources: `cleanup_resources(config);
ibv_free_device_list(dev_list); return err;`. -/
def initFail (err : rdma_status_t) (c : config_t) (dl : Nat) (a : Alloc) :
    Option (rdma_status_t × config_t × Alloc) :=
  (cleanup_resources c a.live).map
    (fun p => (err, p.1, freeH dl { live := p.2, next := a.next }))

/-- init_resources from common.c.  Sequence: device list, first device,
open device, alloc PD, create CQ, create QP, malloc buffer, register MR,
query GID; the first three and the GID query fail with
RDMA_ERR_DEVICE, the five allocation/registration steps with
RDMA_ERR_RESOURCE, and every failure after the context was opened runs
cleanup_resources on everything allocated so far before returning.  (The
mode parameter only selects the memory-region access flags in the source
and does not affect resource accounting.) -/
def init_resources (c0 : config_t) (a0 : Alloc) (o : InitOracle)
    (mode : rdma_mode_t) : Option (rdma_status_t × config_t × Alloc) :=
  if o.dev_list_ok = false then some (RDMA_ERR_DEVICE, c0, a0)
  else
    let (dl, a1) := allocH a0
    if o.device_present = false then some (RDMA_ERR_DEVICE, c0, freeH dl a1)
    else if o.open_ok = false then some (RDMA_ERR_DEVICE, c0, freeH dl a1)
    else
      let (ctx, a2) := allocH a1
      let c1 := { c0 with context := some ctx }
      if o.pd_ok = false then initFail RDMA_ERR_RESOURCE c1 dl a2
      else
        let (pd, a3) := allocH a2
        let c2 := { c1 with pd := some pd }
        if o.cq_ok = false then initFail RDMA_ERR_RESOURCE c2 dl a3
        else
          let (cq, a4) := allocH a3
          let c3 := { c2 with cq := some cq }
          if o.qp_ok = false then initFail RDMA_ERR_RESOURCE c3 dl a4
          else
            let (qp, a5) := allocH a4
            let c4 := { c3 with qp := some qp }
            if o.malloc_ok = false then initFail RDMA_ERR_RESOURCE c4 dl a5
            else
              let (bf, a6) := allocH a5
              let c5 := { c4 with buf := some bf }
              if o.reg_mr_ok = false then initFail RDMA_ERR_RESOURCE c5 dl a6
              else
                let (mr, a7) := allocH a6
                let c6 := { c5 with mr := some mr }
                if o.gid_ok = false then initFail RDMA_ERR_DEVICE c6 dl a7
                else some (RDMA_SUCCESS, c6, freeH dl a7)

/-- Modelled from the spec's error taxonomy, for comparison with the
source: DeviceError for device-discovery, context-open and GID-resolution
failures, ResourceError for protection-domain, completion-queue,
queue-pair, buffer-allocation and memory-registration failures, keyed on
the first failing step. -/
def spec_error_class (o : InitOracle) : rdma_status_t :=
  if o.dev_list_ok = false then RDMA_ERR_DEVICE
  else if o.device_present = false then RDMA_ERR_DEVICE
  else if o.open_ok = false then RDMA_ERR_DEVICE
  else if o.pd_ok = false then RDMA_ERR_RESOURCE
  else if o.cq_ok = false then RDMA_ERR_RESOURCE
  else if o.qp_ok = false then RDMA_ERR_RESOURCE
  else if o.malloc_ok = false then RDMA_ERR_RESOURCE
  else if o.reg_mr_ok = false then RDMA_ERR_RESOURCE
  else if o.gid_ok = false then RDMA_ERR_DEVICE
  else RDMA_SUCCESS

set_option maxRecDepth 100000 in
/-- C5.  Starting from a zero-initialized context, whatever subset of the
initialization steps fails, init_resources never faults, returns exactly
the typed error the spec's taxonomy assigns to the first failing step
(DeviceError for device/context/GID steps, ResourceError for the five
allocation/registration steps), and on every failure the preceding steps'
allocations are all torn down: no live handle remains. -/
theorem init_failure_typed_error_and_full_teardown :
    ∀ (mode : rdma_mode_t) (o : InitOracle),
      (init_resources emptyConfig { live := [], next := 0 } o mode).map
          (fun r => r.1) = some (spec_error_class o) ∧
      (spec_error_class o ≠ RDMA_SUCCESS →
        (init_resources emptyConfig { live := [], next := 0 } o mode).map
            (fun r => r.2.2.live) = some []) := by
  decide

/-- Witness for `init_failure_typed_error_and_full_teardown`: the
queue-pair creation step fails, the error is ResourceError and no live
handle remains. -/
theorem init_failure_typed_error_and_full_teardown_witness :
    spec_error_class
        { dev_list_ok := true, device_present := true, open_ok := true,
          pd_ok := true, cq_ok := true, qp_ok := false, malloc_ok := true,
          reg_mr_ok := true, gid_ok := true } ≠ RDMA_SUCCESS ∧
    (init_resources emptyConfig { live := [], next := 0 }
        { dev_list_ok := true, device_present := true, open_ok := true,
          pd_ok := true, cq_ok := true, qp_ok := false, malloc_ok := true,
          reg_mr_ok := true, gid_ok := true } MODE_LAMBDA).map
      (fun r => r.2.2.live) = some [] :=
  ⟨by decide,
    (init_failure_typed_error_and_full_teardown MODE_LAMBDA
      { dev_list_ok := true, device_present := true, open_ok := true,
        pd_ok := true, cq_ok := true, qp_ok := false, malloc_ok := true,
        reg_mr_ok := true, gid_ok := true }).2 (by decide)⟩

/-! ## Queue-pair state machine (modify_qp_to_init/rtr/rts, connect_qps;
common.c)

Each `ibv_modify_qp` call is driven by an oracle bit; a failing call leaves
the queue-pair state unchanged and the source calls `die` (process exit —
no rollback, no recovery), modelled as `none`. -/

/-- Queue-pair states (the RESET state is the implicit creation state). -/
inductive qp_state
  | QPS_RESET
  | QPS_INIT
  | QPS_RTR
  | QPS_RTS
deriving DecidableEq, Repr

open qp_state

/-- Uniform outcome of a code path that may call `die`. -/
inductive RunOutcome
  | completed
  | died
deriving DecidableEq, Repr

open RunOutcome

/-- Transition events and posted data operations, for traces. -/
inductive ConnEvent
  | trInit
  | trRTR
  | trRTS
  | dataPost (op : rdma_op_t)
deriving DecidableEq, Repr

open ConnEvent

/-- modify_qp_to_init from common.c: RESET to INIT, or `die`. -/
def modify_qp_to_init (s : qp_state) (okFlag : Bool) : Option qp_state :=
  if okFlag then some QPS_INIT else none

/-- modify_qp_to_rtr from common.c: INIT to RTR, or `die`. -/
def modify_qp_to_rtr (s : qp_state) (okFlag : Bool) : Option qp_state :=
  if okFlag then some QPS_RTR else none

/-- modify_qp_to_rts from common.c: RTR to RTS, or `die`. -/
def modify_qp_to_rts (s : qp_state) (okFlag : Bool) : Option qp_state :=
  if okFlag then some QPS_RTS else none

/-- Oracle for the three `ibv_modify_qp` calls of connect_qps. -/
structure ConnOracle where
  init_ok : Bool
  rtr_ok : Bool
  rts_ok : Bool
deriving DecidableEq, Repr

/-- connect_qps from common.c (its tail): the three state transitions are
attempted strictly in the order INIT, RTR, RTS; a failing one dies with
the queue pair left in the state already reached — no rollback is even
attempted. -/
def connect_qps (o : ConnOracle) : qp_state × List ConnEvent × RunOutcome :=
  match modify_qp_to_init QPS_RESET o.init_ok with
  | none => (QPS_RESET, [], died)
  | some s1 =>
    match modify_qp_to_rtr s1 o.rtr_ok with
    | none => (s1, [trInit], died)
    | some s2 =>
      match modify_qp_to_rts s2 o.rts_ok with
      | none => (s2, [trInit, trRTR], died)
      | some s3 => (s3, [trInit, trRTR, trRTS], completed)

/-- run_server / run_client from common.c, after init_resources: the mode
driver (which is the only code that posts data operations) runs only when
connect_qps returned at all; if any transition died, the process is gone
and no data operation is ever posted. -/
def run_after_setup (o : ConnOracle) (posts : List rdma_op_t) :
    List ConnEvent × RunOutcome :=
  match connect_qps o with
  | (_, tr, died) => (tr, died)
  | (_, tr, completed) => (tr ++ posts.map dataPost, completed)

/-- C6.  Every queue pair goes through exactly the three transitions INIT,
RTR, RTS in this fixed order before any data operation is posted; a
failure of any transition dies fatally with the trace stopped at the
failing transition (no rollback: the state stays at the last reached
state) and with no data operation ever posted. -/
theorem qp_transitions_ordered_and_fatal (o : ConnOracle) (posts : List rdma_op_t) :
    ((connect_qps o).2.2 = completed →
      (connect_qps o).2.1 = [trInit, trRTR, trRTS] ∧ (connect_qps o).1 = QPS_RTS) ∧
    ((connect_qps o).2.2 = died →
      ((connect_qps o).2.1 = [] ∧ (connect_qps o).1 = QPS_RESET) ∨
      ((connect_qps o).2.1 = [trInit] ∧ (connect_qps o).1 = QPS_INIT) ∨
      ((connect_qps o).2.1 = [trInit, trRTR] ∧ (connect_qps o).1 = QPS_RTR)) ∧
    (∀ op : rdma_op_t, dataPost op ∈ (run_after_setup o posts).1 →
      (run_after_setup o posts).1.take 3 = [trInit, trRTR, trRTS]) := by
  obtain ⟨i, r, s⟩ := o
  cases i <;> cases r <;> cases s <;>
    simp [connect_qps, run_after_setup, modify_qp_to_init, modify_qp_to_rtr,
      modify_qp_to_rts]

/-- Witness for `qp_transitions_ordered_and_fatal`: with all three
transitions succeeding and one posted send, the posts come after the full
transition sequence. -/
theorem qp_transitions_ordered_and_fatal_witness :
    dataPost OP_SEND ∈ (run_after_setup { init_ok := true, rtr_ok := true, rts_ok := true }
        [OP_SEND]).1 ∧
    (run_after_setup { init_ok := true, rtr_ok := true, rts_ok := true }
        [OP_SEND]).1.take 3 = [trInit, trRTR, trRTS] :=
  ⟨by decide,
    (qp_transitions_ordered_and_fatal
        { init_ok := true, rtr_ok := true, rts_ok := true } [OP_SEND]).2.2
      OP_SEND (by decide)⟩

/-! ## Handshake exchange (exchange_qp_info, common.c)

The control channel carries fixed-size records of `sizeof(struct
qp_info_t)` bytes.  `io1` and `io2` are the byte counts actually moved by
the first and second I/O call (the return values of `write`/`read`); a
count different from the record size is the short-transfer case and the
source dies (`die("Failed to send/receive ... QP info")` — the fatal
control-channel failure class). -/

/-- One I/O call on the control stream: requested and actual byte count. -/
inductive IoStep
  | ioWrite (requested actual : Nat)
  | ioRead (requested actual : Nat)
deriving DecidableEq, Repr

open IoStep

/-- exchange_qp_info from common.c.  Client role (`server_name` non-NULL):
write the local record, then read the peer's.  Server role: read the
peer's record, then write the local one.  Both transfers request exactly
`sizeof_qp_info` bytes; any other actual count dies fatally on the spot. -/
def exchange_qp_info (isClient : Bool) (io1 io2 : Nat) :
    List IoStep × RunOutcome :=
  if isClient then
    if io1 ≠ sizeof_qp_info then ([ioWrite sizeof_qp_info io1], died)
    else if io2 ≠ sizeof_qp_info then
      ([ioWrite sizeof_qp_info io1, ioRead sizeof_qp_info io2], died)
    else ([ioWrite sizeof_qp_info io1, ioRead sizeof_qp_info io2], completed)
  else
    if io1 ≠ sizeof_qp_info then ([ioRead sizeof_qp_info io1], died)
    else if io2 ≠ sizeof_qp_info then
      ([ioRead sizeof_qp_info io1, ioWrite sizeof_qp_info io2], died)
    else ([ioRead sizeof_qp_info io1, ioWrite sizeof_qp_info io2], completed)

/-- C8.  The handshake is a strict two-message protocol over the single
control stream: the client writes its record before reading the peer's,
the server reads before writing, every transfer requests the one fixed
record size `sizeof_qp_info` on both sides, and any short read or short
write dies fatally at that step, with no further I/O. -/
theorem exchange_two_message_fixed_size_fatal_short (io1 io2 : Nat) :
    (io1 = sizeof_qp_info → io2 = sizeof_qp_info →
      exchange_qp_info true io1 io2
          = ([ioWrite sizeof_qp_info io1, ioRead sizeof_qp_info io2], completed) ∧
      exchange_qp_info false io1 io2
          = ([ioRead sizeof_qp_info io1, ioWrite sizeof_qp_info io2], completed)) ∧
    (io1 ≠ sizeof_qp_info →
      exchange_qp_info true io1 io2 = ([ioWrite sizeof_qp_info io1], died) ∧
      exchange_qp_info false io1 io2 = ([ioRead sizeof_qp_info io1], died)) ∧
    (io1 = sizeof_qp_info → io2 ≠ sizeof_qp_info →
      exchange_qp_info true io1 io2
          = ([ioWrite sizeof_qp_info io1, ioRead sizeof_qp_info io2], died) ∧
      exchange_qp_info false io1 io2
          = ([ioRead sizeof_qp_info io1, ioWrite sizeof_qp_info io2], died)) := by
  refine ⟨fun h1 h2 => ?_, fun h1 => ?_, fun h1 h2 => ?_⟩
  · simp [exchange_qp_info, h1, h2]
  · simp [exchange_qp_info, h1]
  · simp [exchange_qp_info, h1, h2]

/-- Witness for `exchange_two_message_fixed_size_fatal_short`: a short
read of 10 bytes in the second transfer is fatal for both roles. -/
theorem exchange_two_message_fixed_size_fatal_short_witness :
    (40 : Nat) = sizeof_qp_info ∧ (10 : Nat) ≠ sizeof_qp_info ∧
    exchange_qp_info true 40 10
      = ([ioWrite sizeof_qp_info 40, ioRead sizeof_qp_info 10], died) :=
  ⟨by decide, by decide,
    ((exchange_two_message_fixed_size_fatal_short 40 10).2.2 (by decide)
      (by decide)).1⟩

end Rdma
